import Mathlib

/-!
# Verification of the Pac-Man core simulation (Main.py)

Shallow embedding of the tile-grid collision model, teleport resolver,
entity/adversary state machine, power-mode controller, scoring step and
level management of the source file `Main.py`, together with proofs of
the specified properties.

Conventions of the embedding:
* Python floats are modelled as rationals (`ℚ`); the only arithmetic the
  source performs on them (addition, subtraction, division by 2 and by the
  tile size, truncation to `int`) is exact on the values arising in play.
* `pygame.Rect` stores integers; float arguments are truncated toward zero
  (Python `int()` semantics), modelled by `pyInt`.
* The grid is a list of rows of integer cell codes, as in the source.
* Randomness (`random.randint`, `random.choice`) is modelled by passing the
  drawn values as explicit arguments.
-/

namespace Pacman

/-- The four movement directions of the game ("up", "down", "left", "right"). -/
inductive Direction where
  | up
  | down
  | left
  | right
deriving DecidableEq, Repr

/-- A continuous 2D position `[x, y]` in pixel space (Python floats, modelled as ℚ). -/
structure Pos where
  x : ℚ
  y : ℚ
deriving DecidableEq, Repr

/-- The maze matrix: a list of rows of integer cell codes. -/
abbrev Matrix := List (List ℤ)

/-- Python `int()` applied to a float: truncation toward zero. -/
def pyInt (q : ℚ) : ℤ :=
  if 0 ≤ q then ⌊q⌋ else ⌈q⌉

/-- A `pygame.Rect`: integer position and size. -/
structure Rect where
  x : ℤ
  y : ℤ
  w : ℤ
  h : ℤ
deriving DecidableEq, Repr

/-- `pygame.Rect.colliderect`: strict overlap on both axes (touching edges
do not collide, zero-size rects never collide). -/
def Rect.colliderect (a b : Rect) : Bool :=
  decide (a.x < b.x + b.w) && decide (a.x + a.w > b.x) &&
  decide (a.y < b.y + b.h) && decide (a.y + a.h > b.y)

/-- `Game.convert_to_pixels`: a matrix coordinate times the tile size. -/
def convert_to_pixels (tile_size : ℤ) (zahl : ℤ) : ℤ :=
  zahl * tile_size

/-- The one-tile bounding box of an entity translated by `speed` along
`direction` (the `rect` built at the top of `check_collision_wall`;
`pygame.Rect` truncates the float coordinates). -/
def entityRect (ts : ℤ) (direction : Direction) (speed : ℚ) (pos : Pos) : Rect :=
  let size := convert_to_pixels ts 1
  match direction with
  | .up => ⟨pyInt pos.x, pyInt (pos.y - speed), size, size⟩
  | .down => ⟨pyInt pos.x, pyInt (pos.y + speed), size, size⟩
  | .left => ⟨pyInt (pos.x - speed), pyInt pos.y, size, size⟩
  | .right => ⟨pyInt (pos.x + speed), pyInt pos.y, size, size⟩

/-- The one-tile rect of the grid cell at tile coordinates `(x, y)`
(the `wall_rect` of `check_collision_wall`). -/
def wallRect (ts : ℤ) (x y : ℕ) : Rect :=
  ⟨convert_to_pixels ts x, convert_to_pixels ts y,
   convert_to_pixels ts 1, convert_to_pixels ts 1⟩

/-- The double loop of `check_collision_wall` over the whole matrix: a cell
of code 1 blocks every entity, a cell of code 2 blocks only when
`is_pacman` is true. `true` as soon as one overlap is found. -/
def collisionScan (ts : ℤ) (matrix : Matrix) (rect : Rect) (is_pacman : Bool) : Bool :=
  (List.range matrix.length).any fun y =>
    (List.range (matrix.headD []).length).any fun x =>
      let cell := (matrix.getD y []).getD x 0
      (cell == 1 && rect.colliderect (wallRect ts x y))
      || (cell == 2 && is_pacman && rect.colliderect (wallRect ts x y))

/-- `check_collision_wall(mygame, direction, speed, pos, is_pacman=False)`:
build the translated one-tile box, then scan the matrix for a blocking
cell. -/
def check_collision_wall (ts : ℤ) (matrix : Matrix) (direction : Direction)
    (speed : ℚ) (pos : Pos) (is_pacman : Bool) : Bool :=
  collisionScan ts matrix (entityRect ts direction speed pos) is_pacman

/-- Tile x-index occupied by a position: `int(x / mygame.convert_to_pixels(1))`. -/
def tileIndexX (ts : ℤ) (p : Pos) : ℤ :=
  pyInt (p.x / (convert_to_pixels ts 1 : ℚ))

/-- Tile y-index occupied by a position: `int(y / mygame.convert_to_pixels(1))`. -/
def tileIndexY (ts : ℤ) (p : Pos) : ℤ :=
  pyInt (p.y / (convert_to_pixels ts 1 : ℚ))

/-- Matrix cell lookup `matrix[ty][tx]` (indices assumed in range on all
gameplay paths; theorems that depend on the looked-up value carry
in-range hypotheses). -/
def cellAt (m : Matrix) (tx ty : ℤ) : ℤ :=
  (m.getD ty.toNat []).getD tx.toNat 0

/-- `check_for_teleport(mygame, pos, direction)`: if the occupied tile has
code 3, rewrite the coordinate on the movement axis (right → column 1,
left → column `width - 2`, up → row `height - 2`, down → row 1) and
report `true`; otherwise report `false` with the position unchanged.
The Python function mutates `pos` in place; here the new position is
returned alongside the flag. -/
def check_for_teleport (ts : ℤ) (m : Matrix) (pos : Pos) (direction : Direction) :
    Bool × Pos :=
  if cellAt m (tileIndexX ts pos) (tileIndexY ts pos) = 3 then
    match direction with
    | .right => (true, ⟨(convert_to_pixels ts 1 : ℤ), pos.y⟩)
    | .left => (true, ⟨(convert_to_pixels ts (((m.headD []).length : ℤ) - 2) : ℤ), pos.y⟩)
    | .up => (true, ⟨pos.x, (convert_to_pixels ts ((m.length : ℤ) - 2) : ℤ)⟩)
    | .down => (true, ⟨pos.x, (convert_to_pixels ts 1 : ℤ)⟩)
  else (false, pos)

/-- One candidate-direction check of `Ghost.is_intersection`: the source
evaluates `current_direction != d and not check_collision_wall(...) and
not check_for_teleport(...)` left to right; the teleport call runs only
when the first two conjuncts hold and mutates the position in place.
State is (number of possible directions so far, current position). -/
def intersectionProbe (ts : ℤ) (m : Matrix) (cur : Direction) (speed : ℚ)
    (d : Direction) (st : ℕ × Pos) : ℕ × Pos :=
  if cur ≠ d then
    if check_collision_wall ts m d speed st.2 false = false then
      let t := check_for_teleport ts m st.2 cur
      if t.1 = false then (st.1 + 1, t.2) else (st.1, t.2)
    else st
  else st

/-- `Ghost.is_intersection`: probes up, down, left, right in order and
reports whether more than one candidate direction was possible, together
with the (possibly teleport-mutated) position. -/
def is_intersection (ts : ℤ) (m : Matrix) (cur : Direction) (speed : ℚ) (pos : Pos) :
    Bool × Pos :=
  let st := intersectionProbe ts m cur speed .up (0, pos)
  let st := intersectionProbe ts m cur speed .down st
  let st := intersectionProbe ts m cur speed .left st
  let st := intersectionProbe ts m cur speed .right st
  (decide (st.1 > 1), st.2)

/-- The 180°-reverse of a direction (used by `change_direction_random`,
which removes exactly this direction from the candidate list). -/
def reverseDir : Direction → Direction
  | .up => .down
  | .down => .up
  | .left => .right
  | .right => .left

/-- Shared entity state (class `Entity`). -/
structure Entity where
  start_pos : Pos
  pos : Pos
  speed : ℚ
  current_direction : Direction
  alive : Bool
  frightened : Bool
  respawn_time : ℚ
  original_speed : ℚ
deriving DecidableEq, Repr

/-- `Entity.__init__(position, speed, images)` (images dropped: presentation). -/
def Entity.init (position : Pos) (speed : ℚ) : Entity :=
  { start_pos := position, pos := position, speed := speed,
    current_direction := .right, alive := true, frightened := false,
    respawn_time := 0, original_speed := speed }

/-- `Entity.kill`: if alive, record the time of death, mark dead, reset
position to the start position and face right; otherwise do nothing. -/
def Entity.kill (now : ℚ) (e : Entity) : Entity :=
  if e.alive then
    { e with respawn_time := now, alive := false, pos := e.start_pos,
             current_direction := .right }
  else e

/-- `Entity.respawn`: back to the start position, alive, not frightened,
at the original speed, facing right. -/
def Entity.respawn (e : Entity) : Entity :=
  { e with pos := e.start_pos, respawn_time := 0, alive := true,
           frightened := false, speed := e.original_speed,
           current_direction := .right }

/-- `Entity.move`: translate along the current direction by `speed` unless
`check_collision_wall` blocks it. -/
def Entity.move (ts : ℤ) (m : Matrix) (is_pacman : Bool) (e : Entity) : Entity :=
  if check_collision_wall ts m e.current_direction e.speed e.pos is_pacman then e
  else
    match e.current_direction with
    | .up => { e with pos := ⟨e.pos.x, e.pos.y - e.speed⟩ }
    | .down => { e with pos := ⟨e.pos.x, e.pos.y + e.speed⟩ }
    | .left => { e with pos := ⟨e.pos.x - e.speed, e.pos.y⟩ }
    | .right => { e with pos := ⟨e.pos.x + e.speed, e.pos.y⟩ }

/-- Ghost speed: `int(mygame.convert_to_pixels(1) / 5)` (true division then
`int()` truncation). -/
def ghostSpeed (ts : ℤ) : ℚ :=
  (pyInt ((convert_to_pixels ts 1 : ℚ) / 5) : ℤ)

/-- `Ghost.create_ghosts_from_matrix`: one ghost per cell of code 5, at that
cell's pixel position, at ghost speed (`original_speed` equal to it). -/
def create_ghosts_from_matrix (ts : ℤ) (m : Matrix) : List Entity :=
  (m.enum.map fun yrow =>
    yrow.2.enum.filterMap fun xcell =>
      if xcell.2 = 5 then
        some (Entity.init ⟨(convert_to_pixels ts xcell.1 : ℤ), (convert_to_pixels ts yrow.1 : ℤ)⟩
          (ghostSpeed ts))
      else none).flatten

/-- Player state (class `Pacman`): shared entity state plus remaining lives. -/
structure Player where
  ent : Entity
  lives : ℤ
deriving DecidableEq, Repr

/-- `Pacman.__init__`: entity at speed `convert_to_pixels(1) / 4` with 3 lives. -/
def Pacman_init (ts : ℤ) (position : Pos) : Player :=
  { ent := Entity.init position ((convert_to_pixels ts 1 : ℚ) / 4), lives := 3 }

/-- `find_coordinates_of_value`: pixel positions of all matrix cells holding
`value`, in row-major order. -/
def find_coordinates_of_value (ts : ℤ) (m : Matrix) (value : ℤ) : List Pos :=
  (m.enum.map fun yrow =>
    yrow.2.enum.filterMap fun xcell =>
      if xcell.2 = value then
        some (⟨(convert_to_pixels ts xcell.1 : ℤ), (convert_to_pixels ts yrow.1 : ℤ)⟩ : Pos)
      else none).flatten

/-- `Pacman.create_pacman_from_matrix`: the player spawns at the first cell
of code 7; `none` models the `ValueError` raised when the marker is missing. -/
def create_pacman_from_matrix (ts : ℤ) (m : Matrix) : Option Player :=
  match find_coordinates_of_value ts m 7 with
  | [] => none
  | p :: _ => some (Pacman_init ts p)

/-- `Pacman.kill`: one life fewer, then the shared `Entity.kill`. -/
def Player.kill (now : ℚ) (p : Player) : Player :=
  { ent := Entity.kill now p.ent, lives := p.lives - 1 }

/-- Session state owned by class `Game` (presentation fields dropped). -/
structure GameState where
  tile_size : ℤ
  numLevels : ℕ
  level : ℕ
  matrix : Matrix
  pacman : Player
  ghosts : List Entity
  power_pill_active : Bool
  power_pill_start_time : ℚ
  score : ℤ
  game_over : Bool
deriving DecidableEq, Repr

/-- `activate_power_pill`: only when not already active, set the flag,
record the activation time and make every ghost frightened at half its
current speed. -/
def activate_power_pill (g : GameState) (now : ℚ) : GameState :=
  if g.power_pill_active = false then
    { g with power_pill_active := true, power_pill_start_time := now,
             ghosts := g.ghosts.map fun gh =>
               { gh with frightened := true, speed := gh.speed / 2 } }
  else g

/-- `update_power_pill`: once active for more than 5 seconds, every
frightened ghost gets its original speed back and stops being frightened,
and the flag is cleared. -/
def update_power_pill (g : GameState) (now : ℚ) : GameState :=
  if g.power_pill_active = true ∧ now - g.power_pill_start_time > 5 then
    { g with
      ghosts := g.ghosts.map fun gh =>
        if gh.frightened then
          { gh with frightened := false, speed := gh.original_speed }
        else gh,
      power_pill_active := false }
  else g

/-- The non-frightened branch of `collision_pacman_ghost`: the player is
killed, all ghosts are discarded and regenerated from the current matrix,
power mode is force-deactivated, and the game ends once lives reach 0. -/
def fatal_collision_step (g : GameState) (now : ℚ) : GameState :=
  let p := Player.kill now g.pacman
  let gs := create_ghosts_from_matrix g.tile_size g.matrix
  let g1 := { g with pacman := p, ghosts := gs, power_pill_active := false }
  if g1.pacman.lives ≤ 0 then { g1 with game_over := true } else g1

/-- Write `v` into the matrix at row `ty`, column `tx`. -/
def setCell (m : Matrix) (ty tx : ℕ) (v : ℤ) : Matrix :=
  m.set ty ((m.getD ty []).set tx v)

/-- `handle_collisions_and_points(mygame, current_score)`: resolves the cell
the player currently occupies (0 → +10 and level-complete check, -2 → +100,
-3 → power pill; each consumed cell becomes -1). Returns
(level-complete flag, new score, new session state). -/
def handle_collisions_and_points (g : GameState) (current_score : ℤ) (now : ℚ) :
    Bool × ℤ × GameState :=
  let pacman_x := (tileIndexX g.tile_size g.pacman.ent.pos).toNat
  let pacman_y := (tileIndexY g.tile_size g.pacman.ent.pos).toNat
  let cell := (g.matrix.getD pacman_y []).getD pacman_x 0
  if cell = 0 then
    let score := current_score + 10
    let g1 := { g with matrix := setCell g.matrix pacman_y pacman_x (-1) }
    if ¬ g1.matrix.any (fun row => row.any fun c => c = 0) then (true, score, g1)
    else (false, score, g1)
  else if cell = -2 then
    (false, current_score + 100, { g with matrix := setCell g.matrix pacman_y pacman_x (-1) })
  else if cell = -3 then
    let g1 := activate_power_pill g now
    (false, current_score, { g1 with matrix := setCell g1.matrix pacman_y pacman_x (-1) })
  else (false, current_score, g)

/-- `place_fruits(mygame, fruit_count)`: `r` is the draw of
`random.randint(0, 200)` (201 equally likely values), `x` the row draw and
`y` the column draw. A fruit is written only while fewer than 2 fruits are
counted, only when `r = 0`, and only onto a cell of code below 1. -/
def place_fruits (m : Matrix) (fruit_count : ℤ) (r x y : ℕ) : Matrix × ℤ :=
  if fruit_count < 2 ∧ r = 0 then
    if (m.getD x []).getD y 0 < 1 then (setCell m x y (-2), fruit_count + 1)
    else (m, fruit_count)
  else (m, fruit_count)

/-- The sample space of `random.randint(0, 200)`: both endpoints included. -/
def fruit_draw_space : Finset ℕ := Finset.range 201

/-- The probability that the ambient fruit-placement trigger
`random.randint(0, 200) == 0` fires on a tick. -/
def fruitTriggerProb : ℚ :=
  ((fruit_draw_space.filter fun r => r = 0).card : ℚ) / (fruit_draw_space.card : ℚ)

/-- The built-in placeholder maze returned by `load_level_from_csv` on any
load failure. -/
def default_matrix : Matrix :=
  [[3, 3, 3, 3, 3, 3, 3, 3],
   [3, 1, 1, 1, 1, 1, 1, 3],
   [3, 1, 0, 0, 0, 0, 1, 3],
   [3, 1, 0, 7, 0, 0, 1, 3],
   [3, 1, 0, 0, 0, 0, 1, 3],
   [3, 1, 1, 1, 1, 1, 1, 3],
   [3, 3, 3, 3, 3, 3, 3, 3]]

/-- The bordering step of `load_level_from_csv`: a row of 3s above and
below, a 3 on each side of every row. -/
def border_matrix (rows : List (List ℤ)) : Matrix :=
  let width := if rows.isEmpty then 0 else (rows.headD []).length
  let horizontal_border := List.replicate (width + 2) (3 : ℤ)
  [horizontal_border] ++ rows.map (fun r => [(3 : ℤ)] ++ r ++ [3]) ++ [horizontal_border]

/-- `load_level_from_csv(file_path)`: the file-system outcome is passed in
(`none` = `FileNotFoundError`, `some rows` = the parsed integer rows).
Empty CSV rows are skipped; ragged rows raise `ValueError`. Every failure
is caught inside this function and yields `default_matrix` — the function
never lets an exception escape. -/
def load_level_from_csv (input : Option (List (List ℤ))) : Matrix :=
  match input with
  | none => default_matrix
  | some rawRows =>
    let rows := rawRows.filter fun row => ¬ row.isEmpty
    if rows.all fun row => row.length = (rows.headD []).length then
      border_matrix rows
    else default_matrix

/-- `Game.level_up(now, input)`: while further levels exist, load the next
level's matrix, recreate the player from it (3 fresh lives), grant one
extra life, kill the player once (the brief "Ready?" pause), and recreate
the ghosts; with no further level, set game-over. `none` models the
uncaught `ValueError` of a missing player spawn marker. The
`except FileNotFoundError` branch of the source is unreachable because
`load_level_from_csv` already catches that error internally. -/
def level_up (g : GameState) (input : Option (List (List ℤ))) (now : ℚ) :
    Option GameState :=
  if (g.level : ℤ) < (g.numLevels : ℤ) - 1 then
    let m := load_level_from_csv input
    match create_pacman_from_matrix g.tile_size m with
    | none => none
    | some p =>
      let p1 := { p with lives := p.lives + 1 }
      let p2 := Player.kill now p1
      some { g with level := g.level + 1, matrix := m, pacman := p2,
                    ghosts := create_ghosts_from_matrix g.tile_size m }
  else some { g with game_over := true }

/-- The session state right after `Game.__init__` plus `start_game`'s menu
entry: level "0" loaded, ghosts created from the matrix, player created
from the matrix (`p`), power pill inactive, score 0, game not over. -/
def initial_game (ts : ℤ) (numLevels : ℕ) (input : Option (List (List ℤ)))
    (p : Player) : GameState :=
  let m := load_level_from_csv input
  { tile_size := ts, numLevels := numLevels, level := 0, matrix := m,
    pacman := p, ghosts := create_ghosts_from_matrix ts m,
    power_pill_active := false, power_pill_start_time := 0, score := 0,
    game_over := false }

/-- Replace the `i`-th ghost of the session by `e`. -/
def setGhost (g : GameState) (i : ℕ) (e : Entity) : GameState :=
  { g with ghosts := g.ghosts.set i e }

/-- One simulation event of the per-tick loop `play_game` (plus level
advance). Events that cannot touch ghost speed/vulnerability or the power
flag — player movement and respawn, grid pickups, fruit placement,
scoring — are over-approximated (arbitrary new player / matrix / score),
which only enlarges the set of reachable states. Ghost movement
(`Ghost.move`, including the teleport inside `is_intersection` and the
random redirects) changes only the ghost's position and heading and is
likewise given as an envelope event. -/
inductive Step : GameState → GameState → Prop where
  | player_update (g : GameState) (p : Player) :
      Step g { g with pacman := p }
  | grid_scored (g : GameState) (m : Matrix) (sc : ℤ) :
      Step g { g with matrix := m, score := sc }
  | ghost_moved (g : GameState) (i : ℕ) (h : i < g.ghosts.length)
      (p : Pos) (d : Direction) :
      Step g (setGhost g i { g.ghosts.get ⟨i, h⟩ with pos := p, current_direction := d })
  | ghost_respawn (g : GameState) (i : ℕ) (h : i < g.ghosts.length) (now : ℚ)
      (hdead : (g.ghosts.get ⟨i, h⟩).alive = false)
      (ht : now - (g.ghosts.get ⟨i, h⟩).respawn_time > 3) :
      Step g (setGhost g i (g.ghosts.get ⟨i, h⟩).respawn)
  | ghost_eaten (g : GameState) (i : ℕ) (h : i < g.ghosts.length) (now : ℚ)
      (hfr : (g.ghosts.get ⟨i, h⟩).frightened = true) :
      Step g { setGhost g i (Entity.kill now (g.ghosts.get ⟨i, h⟩)) with
               score := g.score + 200 }
  | pacman_fatal (g : GameState) (now : ℚ) :
      Step g (fatal_collision_step g now)
  | pill_activated (g : GameState) (now : ℚ) :
      Step g (activate_power_pill g now)
  | pill_updated (g : GameState) (now : ℚ) :
      Step g (update_power_pill g now)
  | level_advance (g : GameState) (input : Option (List (List ℤ))) (now : ℚ)
      (g' : GameState) (h : level_up g input now = some g') :
      Step g g'

/-- The session states reachable during play: an initial state (with the
player spawn marker present, else the constructor raises) followed by any
sequence of simulation events. -/
inductive Reachable : GameState → Prop where
  | init (ts : ℤ) (numLevels : ℕ) (input : Option (List (List ℤ))) (p : Player)
      (hp : create_pacman_from_matrix ts (load_level_from_csv input) = some p) :
      Reachable (initial_game ts numLevels input p)
  | step (g g' : GameState) (hg : Reachable g) (hs : Step g g') : Reachable g'

/-- The speed/vulnerability coupling of a single adversary: half the
original speed exactly while frightened, the original speed otherwise. -/
abbrev GhostInv (e : Entity) : Prop :=
  (e.frightened = true → e.speed = e.original_speed / 2) ∧
  (e.frightened = false → e.speed = e.original_speed)

/-- Session-level invariant: every ghost satisfies `GhostInv`, and while
the power pill is inactive no ghost is frightened. -/
abbrev GameInv (g : GameState) : Prop :=
  (∀ e ∈ g.ghosts, GhostInv e) ∧
  (g.power_pill_active = false → ∀ e ∈ g.ghosts, e.frightened = false)

/-- A one-cell maze holding only an invisible-wall cell (code 2), used to
separate the two roles of `check_collision_wall`. -/
def mxC1 : Matrix := [[2]]

/-- A 5×5 maze with walls at tiles (2,1) and (3,2): for an adversary on
tile (2,2) heading right, up and right are blocked, down and left are
free. -/
def mxIntersection : Matrix :=
  [[0, 0, 0, 0, 0],
   [0, 0, 1, 0, 0],
   [0, 0, 0, 1, 0],
   [0, 0, 0, 0, 0],
   [0, 0, 0, 0, 0]]

/-- A maze whose top-left tile is a teleport cell (code 3). -/
def mxTeleport : Matrix := [[3, 0], [0, 0]]

/-- The candidate set asserted by the specification's wording of the
intersection test (claim C3): directions that differ from the REVERSE of
the current heading, are collision-free, and for which the adversary is
not standing on a teleport tile. Stated from the spec's words, to be
compared against `is_intersection` (which the source derives from the
current heading itself). -/
def claimedQualifyingDirections (ts : ℤ) (m : Matrix) (cur : Direction)
    (speed : ℚ) (pos : Pos) : List Direction :=
  [Direction.up, Direction.down, Direction.left, Direction.right].filter fun d =>
    decide (d ≠ reverseDir cur) && !check_collision_wall ts m d speed pos false
      && !(check_for_teleport ts m pos cur).1

/-- A concrete player for sample session states (tile size 10, spawn at
pixel (10, 10)). -/
def samplePlayer : Player := Pacman_init 10 ⟨10, 10⟩

/-- A concrete session state as produced at startup from the 1×2 level
`[[7, 5]]` (player spawn next to one ghost spawn, bordered by code 3). -/
def sampleState : GameState := initial_game 10 3 (some [[7, 5]]) samplePlayer

/-- `sampleState` with the player down to the last life. -/
def lowLifeState : GameState :=
  { sampleState with pacman := { samplePlayer with lives := 1 } }

/-- `sampleState` with power mode already active. -/
def activePillState : GameState :=
  { sampleState with power_pill_active := true }

/-- A session on the 2×2 level `[[7, 0], [0, 5]]` with the player moved one
tile right of its spawn, onto a point cell (code 0), while another point
cell remains elsewhere in the grid. -/
def pointsState : GameState :=
  let base := initial_game 10 3 (some [[7, 0], [0, 5]]) samplePlayer
  { base with pacman := { samplePlayer with ent := { samplePlayer.ent with pos := ⟨20, 10⟩ } } }

/-- The matrix scan of `check_collision_wall` finds a blocking cell exactly
when some in-range cell has code 1, or code 2 with `is_pacman` set, and
its tile rect strictly overlaps the query rect. -/
theorem collisionScan_eq_true_iff (ts : ℤ) (m : Matrix) (rect : Rect) (isp : Bool) :
    collisionScan ts m rect isp = true ↔
      ∃ y < m.length, ∃ x < (m.headD []).length,
        (((m.getD y []).getD x 0 = 1) ∨ ((m.getD y []).getD x 0 = 2 ∧ isp = true)) ∧
        rect.colliderect (wallRect ts x y) = true := by
  simp only [collisionScan, List.any_eq_true, List.mem_range, Bool.or_eq_true,
    Bool.and_eq_true, beq_iff_eq]
  constructor
  · rintro ⟨y, hy, x, hx, h⟩
    exact ⟨y, hy, x, hx, by tauto⟩
  · rintro ⟨y, hy, x, hx, h⟩
    exact ⟨y, hy, x, hx, by tauto⟩

/-- One probe of `is_intersection`, evaluated when the adversary is not
standing on a teleport tile: the position passes through unchanged and the
count grows exactly when the probed direction differs from the current
heading and is collision-free. -/
theorem intersectionProbe_of_not_teleport (ts : ℤ) (m : Matrix) (cur : Direction)
    (speed : ℚ) (d : Direction) (k : ℕ) (pos : Pos)
    (h3 : cellAt m (tileIndexX ts pos) (tileIndexY ts pos) ≠ 3) :
    intersectionProbe ts m cur speed d (k, pos) =
      (if cur ≠ d ∧ check_collision_wall ts m d speed pos false = false then k + 1 else k,
       pos) := by
  have htp : check_for_teleport ts m pos cur = (false, pos) := by
    rw [check_for_teleport.eq_def, if_neg h3]
  by_cases h1 : cur ≠ d <;> by_cases h2 : check_collision_wall ts m d speed pos false = false <;>
    simp [intersectionProbe, h1, h2, htp]

/-- A successfully created player has the default 3 lives, is alive, and
sits at its start position. -/
theorem create_pacman_fields (ts : ℤ) (m : Matrix) (p : Player)
    (hp : create_pacman_from_matrix ts m = some p) :
    p.lives = 3 ∧ p.ent.alive = true ∧ p.ent.pos = p.ent.start_pos := by
  unfold create_pacman_from_matrix at hp
  rcases hfind : find_coordinates_of_value ts m 7 with _ | ⟨q, rest⟩ <;> rw [hfind] at hp
  · exact absurd hp (by simp)
  · have hq : Pacman_init ts q = p := by injection hp
    subst hq
    exact ⟨rfl, rfl, rfl⟩

/-- Freshly created ghosts satisfy the speed invariant and are not
frightened. -/
theorem ghostInv_create (ts : ℤ) (m : Matrix) :
    ∀ e ∈ create_ghosts_from_matrix ts m, GhostInv e ∧ e.frightened = false := by
  intro e he
  simp only [create_ghosts_from_matrix, List.mem_flatten, List.mem_map] at he
  obtain ⟨l, ⟨yrow, hyrow, rfl⟩, hel⟩ := he
  simp only [List.mem_filterMap] at hel
  obtain ⟨xcell, hx, hsome⟩ := hel
  by_cases h5 : xcell.2 = 5
  · rw [if_pos h5] at hsome
    have he := Option.some.inj hsome
    subst he
    refine ⟨⟨?_, ?_⟩, rfl⟩
    · intro h
      simp [Entity.init] at h
    · intro _
      rfl
  · rw [if_neg h5] at hsome
    exact absurd hsome (by simp)

/-- `Entity.kill` never touches the frightened flag, the speed or the
original speed. -/
theorem entity_kill_fields (now : ℚ) (e : Entity) :
    (Entity.kill now e).frightened = e.frightened
    ∧ (Entity.kill now e).speed = e.speed
    ∧ (Entity.kill now e).original_speed = e.original_speed := by
  unfold Entity.kill
  split <;> exact ⟨rfl, rfl, rfl⟩

/-- Every simulation event preserves the session-level ghost invariant. -/
theorem gameInv_step (g g' : GameState) (ih : GameInv g) (hs : Step g g') : GameInv g' := by
  cases hs with
  | player_update p => exact ih
  | grid_scored m sc => exact ih
  | ghost_moved i h p d =>
    constructor
    · intro e he
      rcases List.mem_or_eq_of_mem_set he with h' | rfl
      · exact ih.1 e h'
      · have hold := ih.1 _ (List.get_mem g.ghosts i h)
        exact ⟨hold.1, hold.2⟩
    · intro hpa e he
      rcases List.mem_or_eq_of_mem_set he with h' | rfl
      · exact ih.2 hpa e h'
      · have hold := ih.2 hpa _ (List.get_mem g.ghosts i h)
        exact hold
  | ghost_respawn i h now hdead ht =>
    constructor
    · intro e he
      rcases List.mem_or_eq_of_mem_set he with h' | rfl
      · exact ih.1 e h'
      · refine ⟨?_, fun _ => rfl⟩
        intro hf
        simp [Entity.respawn] at hf
    · intro hpa e he
      rcases List.mem_or_eq_of_mem_set he with h' | rfl
      · exact ih.2 hpa e h'
      · rfl
  | ghost_eaten i h now hfr =>
    constructor
    · intro e he
      rcases List.mem_or_eq_of_mem_set he with h' | rfl
      · exact ih.1 e h'
      · have hold := ih.1 _ (List.get_mem g.ghosts i h)
        obtain ⟨hf, hsp, hor⟩ := entity_kill_fields now (g.ghosts.get ⟨i, h⟩)
        constructor
        · intro hx
          rw [hsp, hor]
          exact hold.1 (by rw [hf] at hx; exact hx)
        · intro hx
          rw [hsp, hor]
          exact hold.2 (by rw [hf] at hx; exact hx)
    · intro hpa e he
      rcases List.mem_or_eq_of_mem_set he with h' | rfl
      · exact ih.2 hpa e h'
      · obtain ⟨hf, _, _⟩ := entity_kill_fields now (g.ghosts.get ⟨i, h⟩)
        rw [hf]
        exact ih.2 hpa _ (List.get_mem g.ghosts i h)
  | pacman_fatal now =>
    have hfields : (fatal_collision_step g now).ghosts
          = create_ghosts_from_matrix g.tile_size g.matrix
        ∧ (fatal_collision_step g now).power_pill_active = false := by
      simp only [fatal_collision_step]
      split <;> exact ⟨rfl, rfl⟩
    constructor
    · intro e he
      rw [hfields.1] at he
      exact (ghostInv_create _ _ e he).1
    · intro _ e he
      rw [hfields.1] at he
      exact (ghostInv_create _ _ e he).2
  | pill_activated now =>
    unfold activate_power_pill
    split
    next hact =>
      constructor
      · intro e he
        simp only [List.mem_map] at he
        obtain ⟨a, ha, rfl⟩ := he
        have hnf : a.frightened = false := ih.2 hact a ha
        have hsp : a.speed = a.original_speed := (ih.1 a ha).2 hnf
        refine ⟨fun _ => by simp only [hsp], ?_⟩
        intro hf
        simp at hf
      · intro hpa
        exact absurd hpa (by simp)
    next hact => exact ih
  | pill_updated now =>
    unfold update_power_pill
    split
    next hcond =>
      constructor
      · intro e he
        simp only [List.mem_map] at he
        obtain ⟨a, ha, rfl⟩ := he
        by_cases hf : a.frightened
        · rw [if_pos hf]
          refine ⟨?_, fun _ => rfl⟩
          intro hx
          simp at hx
        · rw [if_neg hf]
          exact ih.1 a ha
      · intro _ e he
        simp only [List.mem_map] at he
        obtain ⟨a, ha, rfl⟩ := he
        by_cases hf : a.frightened
        · rw [if_pos hf]
        · rw [if_neg hf]
          exact Bool.eq_false_iff.mpr hf
    next hcond => exact ih
  | level_advance input now g' hup =>
    unfold level_up at hup
    by_cases hlev : (g.level : ℤ) < (g.numLevels : ℤ) - 1
    · rw [if_pos hlev] at hup
      rcases hcp : create_pacman_from_matrix g.tile_size (load_level_from_csv input)
        with _ | p
      · simp only [hcp] at hup
        exact Option.noConfusion hup
      · simp only [hcp] at hup
        have hg' := Option.some.inj hup
        subst hg'
        constructor
        · intro e he
          exact (ghostInv_create _ _ e he).1
        · intro _ e he
          exact (ghostInv_create _ _ e he).2
    · rw [if_neg hlev] at hup
      have hg' := Option.some.inj hup
      subst hg'
      exact ih

/-- Every reachable session state satisfies the ghost speed/vulnerability
invariant. -/
theorem gameInv_reachable (g : GameState) (hg : Reachable g) : GameInv g := by
  induction hg with
  | init ts n input p hp =>
    constructor
    · intro e he
      exact (ghostInv_create _ _ e he).1
    · intro _ e he
      exact (ghostInv_create _ _ e he).2
  | step g g' hg hs ih => exact gameInv_step g g' ih hs

/-- C1 (amended): `check_collision_wall` treats invisible-wall cells
(code 2) as blocking for the PLAYER only — with `is_pacman = true` the
test returns true exactly when the translated one-tile box overlaps a
code-1 or a code-2 cell, while with `is_pacman = false` (adversaries) it
returns true exactly when the box overlaps a code-1 cell, ignoring code-2
cells entirely; code-1 wall cells block both. This is the role-swap of
the original claim. -/
theorem C1_invisible_wall_blocks_player_only (ts : ℤ) (m : Matrix) (d : Direction)
    (speed : ℚ) (pos : Pos) :
    (check_collision_wall ts m d speed pos true = true ↔
      ∃ y < m.length, ∃ x < (m.headD []).length,
        (((m.getD y []).getD x 0 = 1) ∨ ((m.getD y []).getD x 0 = 2)) ∧
        (entityRect ts d speed pos).colliderect (wallRect ts x y) = true)
    ∧ (check_collision_wall ts m d speed pos false = true ↔
      ∃ y < m.length, ∃ x < (m.headD []).length,
        ((m.getD y []).getD x 0 = 1) ∧
        (entityRect ts d speed pos).colliderect (wallRect ts x y) = true) := by
  constructor
  · rw [check_collision_wall, collisionScan_eq_true_iff]
    simp
  · rw [check_collision_wall, collisionScan_eq_true_iff]
    simp

/-- C1 (counterexample): on the one-cell maze holding a code-2 cell, with
the translated box overlapping that cell, the adversary test returns
false (the claim predicts true) and the player test returns true (the
claim says the player may overlap code-2 cells freely). -/
theorem C1_counterexample :
    ((mxC1.getD 0 []).getD 0 0 = 2)
    ∧ (entityRect 10 .right 5 ⟨0, 0⟩).colliderect (wallRect 10 0 0) = true
    ∧ check_collision_wall 10 mxC1 .right 5 ⟨0, 0⟩ false = false
    ∧ check_collision_wall 10 mxC1 .right 5 ⟨0, 0⟩ true = true := by
  have hrect : entityRect 10 .right 5 ⟨0, 0⟩ = ⟨5, 0, 10, 10⟩ := by
    norm_num [entityRect, pyInt, convert_to_pixels]
  refine ⟨by decide, ?_, ?_, ?_⟩
  · rw [hrect]; decide
  · rw [check_collision_wall, hrect]; decide
  · rw [check_collision_wall, hrect]; decide

/-- C1 (witness): the amended characterization at a concrete query. -/
theorem C1_witness :
    (check_collision_wall 10 mxC1 .right 5 ⟨0, 0⟩ true = true ↔
      ∃ y < mxC1.length, ∃ x < (mxC1.headD []).length,
        (((mxC1.getD y []).getD x 0 = 1) ∨ ((mxC1.getD y []).getD x 0 = 2)) ∧
        (entityRect 10 .right 5 ⟨0, 0⟩).colliderect (wallRect 10 x y) = true)
    ∧ (check_collision_wall 10 mxC1 .right 5 ⟨0, 0⟩ false = true ↔
      ∃ y < mxC1.length, ∃ x < (mxC1.headD []).length,
        ((mxC1.getD y []).getD x 0 = 1) ∧
        (entityRect 10 .right 5 ⟨0, 0⟩).colliderect (wallRect 10 x y) = true) :=
  C1_invisible_wall_blocks_player_only 10 mxC1 .right 5 ⟨0, 0⟩

/-- C2: a fatal (non-vulnerable) adversary collision decrements the
player's lives by exactly one, and — starting from a running game with at
least one life — the game-over flag becomes true by that collision exactly
when lives transition from 1 to 0: never while more lives remain, and
never skipping the transition. -/
theorem C2_fatal_collision_lives_game_over (g : GameState) (now : ℚ)
    (hgo : g.game_over = false) (hl : 1 ≤ g.pacman.lives) :
    (fatal_collision_step g now).pacman.lives = g.pacman.lives - 1
    ∧ ((fatal_collision_step g now).game_over = true ↔ g.pacman.lives = 1) := by
  simp only [fatal_collision_step, Player.kill]
  split
  next h =>
    refine ⟨rfl, ?_⟩
    constructor
    · intro _
      omega
    · intro _
      trivial
  next h =>
    refine ⟨rfl, ?_⟩
    simp only [hgo]
    constructor
    · intro hc
      exact absurd hc (by simp)
    · intro hc
      omega

/-- C2 (witness): at the concrete state with one life left, the fatal
collision drops lives to 0 and sets game-over. -/
theorem C2_witness :
    (lowLifeState.game_over = false ∧ 1 ≤ lowLifeState.pacman.lives)
    ∧ ((fatal_collision_step lowLifeState 0).pacman.lives = lowLifeState.pacman.lives - 1
       ∧ ((fatal_collision_step lowLifeState 0).game_over = true
            ↔ lowLifeState.pacman.lives = 1)) :=
  ⟨⟨rfl, by decide⟩, C2_fatal_collision_lives_game_over lowLifeState 0 rfl (by decide)⟩

/-- C3 (counterexample): on `mxIntersection` with the adversary at
(20, 20) heading right (up and right blocked, down and left free), the
set the claim counts — directions differing from the REVERSE of the
heading, collision-free, not on a teleport tile — has exactly one element
(down), so the claim predicts no redirect; yet the source's test triggers
one (it excludes the current heading, not its reverse, so it also counts
left). Moreover, with the adversary standing on a code-3 teleport tile,
the test does not leave the position unchanged: it teleports the
adversary. -/
theorem C3_counterexample :
    (claimedQualifyingDirections 10 mxIntersection .right 2 ⟨20, 20⟩).length = 1
    ∧ (is_intersection 10 mxIntersection .right 2 ⟨20, 20⟩).1 = true
    ∧ (is_intersection 10 mxTeleport .right 2 ⟨0, 0⟩).2 ≠ (⟨0, 0⟩ : Pos) := by
  have hup : check_collision_wall 10 mxIntersection .up 2 ⟨20, 20⟩ false = true := by
    have h : entityRect 10 .up 2 ⟨20, 20⟩ = ⟨20, 18, 10, 10⟩ := by
      norm_num [entityRect, pyInt, convert_to_pixels]
    rw [check_collision_wall, h]; decide
  have hdown : check_collision_wall 10 mxIntersection .down 2 ⟨20, 20⟩ false = false := by
    have h : entityRect 10 .down 2 ⟨20, 20⟩ = ⟨20, 22, 10, 10⟩ := by
      norm_num [entityRect, pyInt, convert_to_pixels]
    rw [check_collision_wall, h]; decide
  have hleft : check_collision_wall 10 mxIntersection .left 2 ⟨20, 20⟩ false = false := by
    have h : entityRect 10 .left 2 ⟨20, 20⟩ = ⟨18, 20, 10, 10⟩ := by
      norm_num [entityRect, pyInt, convert_to_pixels]
    rw [check_collision_wall, h]; decide
  have hright : check_collision_wall 10 mxIntersection .right 2 ⟨20, 20⟩ false = true := by
    have h : entityRect 10 .right 2 ⟨20, 20⟩ = ⟨22, 20, 10, 10⟩ := by
      norm_num [entityRect, pyInt, convert_to_pixels]
    rw [check_collision_wall, h]; decide
  have htp : check_for_teleport 10 mxIntersection ⟨20, 20⟩ .right = (false, ⟨20, 20⟩) := by
    have h : cellAt mxIntersection (tileIndexX 10 ⟨20, 20⟩) (tileIndexY 10 ⟨20, 20⟩) = 0 := by
      norm_num [cellAt, tileIndexX, tileIndexY, pyInt, convert_to_pixels, mxIntersection]
      decide
    rw [check_for_teleport.eq_def, if_neg (by rw [h]; decide)]
  refine ⟨?_, ?_, ?_⟩
  · rw [claimedQualifyingDirections]
    simp [List.filter, hup, hdown, hleft, hright, htp, reverseDir]
  · have p1 : intersectionProbe 10 mxIntersection .right 2 .up (0, ⟨20, 20⟩) = (0, ⟨20, 20⟩) := by
      simp [intersectionProbe, hup]
    have p2 : intersectionProbe 10 mxIntersection .right 2 .down (0, ⟨20, 20⟩) = (1, ⟨20, 20⟩) := by
      simp [intersectionProbe, hdown, htp]
    have p3 : intersectionProbe 10 mxIntersection .right 2 .left (1, ⟨20, 20⟩) = (2, ⟨20, 20⟩) := by
      simp [intersectionProbe, hleft, htp]
    have p4 : intersectionProbe 10 mxIntersection .right 2 .right (2, ⟨20, 20⟩) = (2, ⟨20, 20⟩) := by
      simp [intersectionProbe]
    simp only [is_intersection, p1, p2, p3, p4]
    decide
  · have hcwU : check_collision_wall 10 mxTeleport .up 2 ⟨0, 0⟩ false = false := by
      have h : entityRect 10 .up 2 ⟨0, 0⟩ = ⟨0, -2, 10, 10⟩ := by
        norm_num [entityRect, pyInt, convert_to_pixels]
        rw [show ((-2 : ℚ)) = ((-2 : ℤ) : ℚ) by norm_num, Int.ceil_intCast]
      rw [check_collision_wall, h]; decide
    have htpT : check_for_teleport 10 mxTeleport ⟨0, 0⟩ .right = (true, ⟨10, 0⟩) := by
      have h : cellAt mxTeleport (tileIndexX 10 ⟨0, 0⟩) (tileIndexY 10 ⟨0, 0⟩) = 3 := by
        norm_num [cellAt, tileIndexX, tileIndexY, pyInt, convert_to_pixels, mxTeleport]
      rw [check_for_teleport.eq_def, if_pos h]
      norm_num [convert_to_pixels]
    have hcwD : check_collision_wall 10 mxTeleport .down 2 ⟨10, 0⟩ false = false := by
      have h : entityRect 10 .down 2 ⟨10, 0⟩ = ⟨10, 2, 10, 10⟩ := by
        norm_num [entityRect, pyInt, convert_to_pixels]
      rw [check_collision_wall, h]; decide
    have hcwL : check_collision_wall 10 mxTeleport .left 2 ⟨10, 0⟩ false = false := by
      have h : entityRect 10 .left 2 ⟨10, 0⟩ = ⟨8, 0, 10, 10⟩ := by
        norm_num [entityRect, pyInt, convert_to_pixels]
      rw [check_collision_wall, h]; decide
    have htpT2 : check_for_teleport 10 mxTeleport ⟨10, 0⟩ .right = (false, ⟨10, 0⟩) := by
      have h : cellAt mxTeleport (tileIndexX 10 ⟨10, 0⟩) (tileIndexY 10 ⟨10, 0⟩) = 0 := by
        norm_num [cellAt, tileIndexX, tileIndexY, pyInt, convert_to_pixels, mxTeleport]
      rw [check_for_teleport.eq_def, if_neg (by rw [h]; decide)]
    have q1 : intersectionProbe 10 mxTeleport .right 2 .up (0, ⟨0, 0⟩) = (0, ⟨10, 0⟩) := by
      simp [intersectionProbe, hcwU, htpT]
    have q2 : intersectionProbe 10 mxTeleport .right 2 .down (0, ⟨10, 0⟩) = (1, ⟨10, 0⟩) := by
      simp [intersectionProbe, hcwD, htpT2]
    have q3 : intersectionProbe 10 mxTeleport .right 2 .left (1, ⟨10, 0⟩) = (2, ⟨10, 0⟩) := by
      simp [intersectionProbe, hcwL, htpT2]
    have q4 : intersectionProbe 10 mxTeleport .right 2 .right (2, ⟨10, 0⟩) = (2, ⟨10, 0⟩) := by
      simp [intersectionProbe]
    simp only [is_intersection, q1, q2, q3, q4]
    decide

/-- C3 (amended): whenever the adversary is NOT standing on a teleport
tile, the intersection test leaves its position unchanged and triggers
the redirect if and only if more than one of the four headings both
differs from the CURRENT heading itself (not its reverse) and is
collision-free at the adversary's speed; when the occupied tile is a
code-3 teleport tile, the embedded teleport check relocates the
adversary instead. -/
theorem C3_intersection_test_amended (ts : ℤ) (m : Matrix) (cur : Direction)
    (speed : ℚ) (pos : Pos)
    (h3 : cellAt m (tileIndexX ts pos) (tileIndexY ts pos) ≠ 3) :
    (is_intersection ts m cur speed pos).2 = pos
    ∧ ((is_intersection ts m cur speed pos).1 = true ↔
        1 < ([Direction.up, Direction.down, Direction.left, Direction.right].filter fun d =>
              decide (cur ≠ d) && !check_collision_wall ts m d speed pos false).length) := by
  simp only [is_intersection, intersectionProbe_of_not_teleport ts m cur speed _ _ pos h3]
  refine ⟨by trivial, ?_⟩
  cases cur <;>
    cases hcw1 : check_collision_wall ts m .up speed pos false <;>
    cases hcw2 : check_collision_wall ts m .down speed pos false <;>
    cases hcw3 : check_collision_wall ts m .left speed pos false <;>
    cases hcw4 : check_collision_wall ts m .right speed pos false <;>
    simp [List.filter, hcw1, hcw2, hcw3, hcw4]

/-- C3 (witness): the amended statement applied at the concrete
`mxIntersection` configuration. -/
theorem C3_witness :
    cellAt mxIntersection (tileIndexX 10 ⟨20, 20⟩) (tileIndexY 10 ⟨20, 20⟩) ≠ 3
    ∧ ((is_intersection 10 mxIntersection .right 2 ⟨20, 20⟩).2 = ⟨20, 20⟩
      ∧ ((is_intersection 10 mxIntersection .right 2 ⟨20, 20⟩).1 = true ↔
          1 < ([Direction.up, Direction.down, Direction.left, Direction.right].filter fun d =>
                decide (Direction.right ≠ d)
                  && !check_collision_wall 10 mxIntersection d 2 ⟨20, 20⟩ false).length)) := by
  have h : cellAt mxIntersection (tileIndexX 10 ⟨20, 20⟩) (tileIndexY 10 ⟨20, 20⟩) = 0 := by
    norm_num [cellAt, tileIndexX, tileIndexY, pyInt, convert_to_pixels, mxIntersection]
    decide
  have h3 : cellAt mxIntersection (tileIndexX 10 ⟨20, 20⟩) (tileIndexY 10 ⟨20, 20⟩) ≠ 3 := by
    rw [h]; decide
  exact ⟨h3, C3_intersection_test_amended 10 mxIntersection .right 2 ⟨20, 20⟩ h3⟩

/-- C4 (counterexample): advancing a session whose player has 1 life left
yields a player with 3 lives, not the 2 the claim (pre-advance lives plus
exactly one) predicts — lives do not persist across a level advance; the
player is recreated with the default 3. -/
theorem C4_counterexample :
    lowLifeState.pacman.lives = 1
    ∧ (level_up lowLifeState (some [[7, 5]]) 0).map (fun s => s.pacman.lives) = some 3
    ∧ some (lowLifeState.pacman.lives + 1) ≠ some (3 : ℤ) :=
  ⟨rfl, rfl, by decide⟩

/-- C4 (amended): on level advance the session's score persists untouched,
the grid is replaced by the newly loaded one, the adversaries are
recreated from the new grid's spawn markers, and the player is recreated
at the new grid's spawn — but with the fresh default of 3 lives (the
recreation resets lives; the extra life granted and the forced kill
cancel), regardless of the pre-advance lives. -/
theorem C4_level_advance_amended (g : GameState) (input : Option (List (List ℤ)))
    (now : ℚ) (g' : GameState) (p : Player)
    (hlev : (g.level : ℤ) < (g.numLevels : ℤ) - 1)
    (hp : create_pacman_from_matrix g.tile_size (load_level_from_csv input) = some p)
    (hup : level_up g input now = some g') :
    g'.score = g.score
    ∧ g'.pacman.lives = 3
    ∧ g'.matrix = load_level_from_csv input
    ∧ g'.pacman.ent.start_pos = p.ent.start_pos
    ∧ g'.pacman.ent.pos = p.ent.start_pos
    ∧ g'.ghosts = create_ghosts_from_matrix g.tile_size (load_level_from_csv input)
    ∧ g'.level = g.level + 1 := by
  obtain ⟨hl3, halive, hpp⟩ := create_pacman_fields _ _ _ hp
  unfold level_up at hup
  rw [if_pos hlev] at hup
  simp only [hp] at hup
  have hg' : _ = g' := Option.some.inj hup
  subst hg'
  refine ⟨rfl, ?_, rfl, ?_, ?_, rfl, rfl⟩
  · simp [Player.kill, hl3]
  · simp [Player.kill, Entity.kill, halive]
  · simp [Player.kill, Entity.kill, halive]

/-- C4 (witness): the amended statement at the concrete low-life session. -/
theorem C4_witness :
    ((lowLifeState.level : ℤ) < (lowLifeState.numLevels : ℤ) - 1)
    ∧ ((level_up lowLifeState (some [[7, 5]]) 0).getD lowLifeState).score = lowLifeState.score
    ∧ ((level_up lowLifeState (some [[7, 5]]) 0).getD lowLifeState).pacman.lives = 3 := by
  have hp : create_pacman_from_matrix lowLifeState.tile_size (load_level_from_csv (some [[7, 5]]))
      = some (Pacman_init 10 ⟨10, 10⟩) := rfl
  have hup : level_up lowLifeState (some [[7, 5]]) 0
      = some ((level_up lowLifeState (some [[7, 5]]) 0).getD lowLifeState) := rfl
  have h := C4_level_advance_amended lowLifeState (some [[7, 5]]) 0 _ _ (by decide) hp hup
  exact ⟨by decide, h.1, h.2.1⟩

/-- C5: activating power mode while the flag is already set changes
nothing at all (same state: no second halving, no timestamp refresh), and
for a session whose adversaries run at their original speeds (the
invariant of every reachable inactive state), activating and then — once
the 5-second window has elapsed — deactivating restores every adversary's
speed exactly and leaves every adversary non-vulnerable. -/
theorem C5_power_mode_idempotent_and_restoring (g : GameState) (now later : ℚ) :
    (g.power_pill_active = true → activate_power_pill g now = g)
    ∧ (g.power_pill_active = false →
        (∀ e ∈ g.ghosts, e.speed = e.original_speed) →
        later - now > 5 →
        (update_power_pill (activate_power_pill g now) later).ghosts.map Entity.speed
          = g.ghosts.map Entity.speed
        ∧ ∀ e ∈ (update_power_pill (activate_power_pill g now) later).ghosts,
            e.frightened = false) := by
  constructor
  · intro h
    rw [activate_power_pill, if_neg (by simp [h])]
  · intro hact hsp ht
    rw [activate_power_pill, if_pos hact, update_power_pill, if_pos ⟨rfl, ht⟩]
    constructor
    · simp only [List.map_map]
      apply List.map_congr_left
      intro e he
      simp [Function.comp, (hsp e he).symm]
    · intro e he
      simp only [List.map_map, List.mem_map] at he
      obtain ⟨a, ha, rfl⟩ := he
      simp [Function.comp]

/-- C5 (witness): the no-op branch at a power-active state and the
restore-after-expiry round trip at the startup state. -/
theorem C5_witness :
    (activePillState.power_pill_active = true
      ∧ activate_power_pill activePillState 0 = activePillState)
    ∧ ((sampleState.power_pill_active = false ∧ (6 : ℚ) - 0 > 5)
      ∧ (update_power_pill (activate_power_pill sampleState 0) 6).ghosts.map Entity.speed
          = sampleState.ghosts.map Entity.speed
      ∧ ∀ e ∈ (update_power_pill (activate_power_pill sampleState 0) 6).ghosts,
          e.frightened = false) := by
  have hsp : ∀ e ∈ sampleState.ghosts, e.speed = e.original_speed := by
    have hl : sampleState.ghosts = [Entity.init ⟨20, 10⟩ (ghostSpeed 10)] := rfl
    intro e he
    rw [hl] at he
    simp only [List.mem_singleton] at he
    subst he
    rfl
  have h2 := (C5_power_mode_idempotent_and_restoring sampleState 0 6).2 rfl hsp (by norm_num)
  exact ⟨⟨rfl, (C5_power_mode_idempotent_and_restoring activePillState 0 6).1 rfl⟩,
    ⟨rfl, by norm_num⟩, h2.1, h2.2⟩

/-- C6: called on a position whose occupied tile has code 3, the teleport
resolver returns true and rewrites exactly the movement-axis coordinate —
right to the leftmost inner column (tile 1), left to column
`width_in_tiles - 2`, up to row `height_in_tiles - 2`, down to row 1 —
and on any other tile it returns false with the position unchanged. -/
theorem C6_teleport_resolver (ts : ℤ) (m : Matrix) (pos : Pos) (d : Direction) :
    (cellAt m (tileIndexX ts pos) (tileIndexY ts pos) = 3 →
      check_for_teleport ts m pos d =
        (true, match d with
          | .right => ⟨(ts : ℚ), pos.y⟩
          | .left => ⟨(((((m.headD []).length : ℤ) - 2) * ts : ℤ) : ℚ), pos.y⟩
          | .up => ⟨pos.x, ((((m.length : ℤ) - 2) * ts : ℤ) : ℚ)⟩
          | .down => ⟨pos.x, (ts : ℚ)⟩))
    ∧ (cellAt m (tileIndexX ts pos) (tileIndexY ts pos) ≠ 3 →
      check_for_teleport ts m pos d = (false, pos)) := by
  constructor
  · intro h
    cases d <;> simp [check_for_teleport, h, convert_to_pixels]
  · intro h
    simp [check_for_teleport, h]

/-- C6 (witness): teleporting right from the code-3 corner tile of
`mxTeleport` lands on the leftmost inner column at the same row. -/
theorem C6_witness :
    cellAt mxTeleport (tileIndexX 10 ⟨0, 0⟩) (tileIndexY 10 ⟨0, 0⟩) = 3
    ∧ check_for_teleport 10 mxTeleport ⟨0, 0⟩ .right = (true, ⟨(10 : ℚ), 0⟩) := by
  have h : cellAt mxTeleport (tileIndexX 10 ⟨0, 0⟩) (tileIndexY 10 ⟨0, 0⟩) = 3 := by
    norm_num [cellAt, tileIndexX, tileIndexY, pyInt, convert_to_pixels, mxTeleport]
  exact ⟨h, (C6_teleport_resolver 10 mxTeleport ⟨0, 0⟩ .right).1 h⟩

/-- C7: when the player's occupied tile has code 0, the pickup step adds
exactly 10 to the score and writes -1 into that cell, and it signals
level-complete if and only if, immediately after that mutation, no cell
anywhere in the grid equals 0; consuming a tile already at -1 changes
neither the score nor the grid nor any other session state. -/
theorem C7_pickup_step (g : GameState) (cs : ℤ) (now : ℚ) (tx ty : ℕ)
    (htx : tileIndexX g.tile_size g.pacman.ent.pos = (tx : ℤ))
    (hty : tileIndexY g.tile_size g.pacman.ent.pos = (ty : ℤ))
    (hby : ty < g.matrix.length)
    (hbx : tx < (g.matrix.getD ty []).length) :
    ((g.matrix.getD ty []).getD tx 0 = 0 →
      handle_collisions_and_points g cs now
        = ((!(setCell g.matrix ty tx (-1)).any fun row => row.any fun c => decide (c = 0)),
           cs + 10, { g with matrix := setCell g.matrix ty tx (-1) })
      ∧ ((handle_collisions_and_points g cs now).1 = true ↔
          ∀ row ∈ setCell g.matrix ty tx (-1), ∀ c ∈ row, c ≠ 0))
    ∧ ((g.matrix.getD ty []).getD tx 0 = -1 →
      handle_collisions_and_points g cs now = (false, cs, g)) := by
  constructor
  · intro h0
    have hEq : handle_collisions_and_points g cs now
        = ((!(setCell g.matrix ty tx (-1)).any fun row => row.any fun c => decide (c = 0)),
           cs + 10, { g with matrix := setCell g.matrix ty tx (-1) }) := by
      unfold handle_collisions_and_points
      simp only [htx, hty, Int.toNat_natCast]
      rw [if_pos h0]
      by_cases hany :
          ((setCell g.matrix ty tx (-1)).any fun row => row.any fun c => decide (c = 0)) = true
      · rw [if_neg (not_not_intro hany), hany]
        rfl
      · rw [if_pos hany]
        have hfalse :
            ((setCell g.matrix ty tx (-1)).any fun row => row.any fun c => decide (c = 0))
              = false := by
          revert hany
          cases ((setCell g.matrix ty tx (-1)).any fun row => row.any fun c => decide (c = 0)) <;>
            simp
        rw [hfalse]
        rfl
    refine ⟨hEq, ?_⟩
    rw [hEq]
    simp only [Bool.not_eq_true', List.any_eq_false]
    constructor
    · intro h row hrow c hc hc0
      have hrx := h row hrow
      rw [List.any_eq_true] at hrx
      exact hrx ⟨c, hc, by simp [hc0]⟩
    · intro h row hrow
      rw [List.any_eq_true]
      rintro ⟨c, hc, hc0⟩
      exact h row hrow c hc (by simpa using hc0)
  · intro h1
    unfold handle_collisions_and_points
    simp only [htx, hty, Int.toNat_natCast, h1]
    rw [if_neg (by norm_num), if_neg (by norm_num), if_neg (by norm_num)]

/-- C7 (witness): at the concrete `pointsState` — player on a code-0 cell
with another code-0 cell left elsewhere — the pickup rewrites the cell,
adds 10, and does not signal level-complete. -/
theorem C7_witness :
    (tileIndexX pointsState.tile_size pointsState.pacman.ent.pos = ((2 : ℕ) : ℤ)
      ∧ tileIndexY pointsState.tile_size pointsState.pacman.ent.pos = ((1 : ℕ) : ℤ)
      ∧ (1 : ℕ) < pointsState.matrix.length
      ∧ (2 : ℕ) < (pointsState.matrix.getD 1 []).length
      ∧ (pointsState.matrix.getD 1 []).getD 2 0 = 0)
    ∧ (handle_collisions_and_points pointsState 0 0
        = ((!(setCell pointsState.matrix 1 2 (-1)).any fun row => row.any fun c => decide (c = 0)),
           0 + 10, { pointsState with matrix := setCell pointsState.matrix 1 2 (-1) })
      ∧ ((handle_collisions_and_points pointsState 0 0).1 = true ↔
          ∀ row ∈ setCell pointsState.matrix 1 2 (-1), ∀ c ∈ row, c ≠ 0)) := by
  have htx : tileIndexX pointsState.tile_size pointsState.pacman.ent.pos = ((2 : ℕ) : ℤ) := by
    show tileIndexX 10 ⟨20, 10⟩ = ((2 : ℕ) : ℤ)
    norm_num [tileIndexX, pyInt, convert_to_pixels]
  have hty : tileIndexY pointsState.tile_size pointsState.pacman.ent.pos = ((1 : ℕ) : ℤ) := by
    show tileIndexY 10 ⟨20, 10⟩ = ((1 : ℕ) : ℤ)
    norm_num [tileIndexY, pyInt, convert_to_pixels]
  have h := C7_pickup_step pointsState 0 0 2 1 htx hty (by decide) (by decide)
  exact ⟨⟨htx, hty, by decide, by decide, by decide⟩, h.1 (by decide)⟩

/-- C8: evaluated at the failing input — a level advance whose next level
file is missing — `level_up` does NOT set the game-over flag and does not
crash; it silently continues on the built-in placeholder maze, because
`load_level_from_csv` catches the file-not-found error internally and
returns `default_matrix`, so the `except FileNotFoundError` branch of
`level_up` (whose message announces the intended game-over) can never
run. The claim describes the intended behavior; the code is the slip. -/
theorem C8_missing_level_falls_back_to_placeholder :
    load_level_from_csv none = default_matrix
    ∧ (level_up sampleState none 0).map (fun s => s.game_over) = some false
    ∧ (level_up sampleState none 0).map (fun s => s.matrix) = some default_matrix :=
  ⟨rfl, rfl, rfl⟩

/-- C9 (counterexample): the ambient fruit trigger draws
`random.randint(0, 200)`, whose range includes both endpoints, so the
per-tick placement probability is exactly 1/201 — not the 1/200 the claim
states. -/
theorem C9_counterexample :
    fruitTriggerProb = 1 / 201 ∧ fruitTriggerProb ≠ 1 / 200 := by
  have h : fruitTriggerProb = 1 / 201 := by
    norm_num [fruitTriggerProb, fruit_draw_space, Finset.filter_eq']
  exact ⟨h, by rw [h]; norm_num⟩

/-- C9 (amended): each tick the ambient fruit trigger fires with
probability exactly 1/201 (201 equally likely draws, firing on draw 0),
and only while the fruit counter is below 2; on a uniformly drawn tile a
fruit (code -2) is written only if that tile's current code is below 1,
and exactly then the counter increments by one; otherwise grid and
counter are unchanged. -/
theorem C9_fruit_placement_amended (m : Matrix) (c : ℤ) (r x y : ℕ) :
    fruitTriggerProb = 1 / 201
    ∧ (c < 2 → r = 0 → (m.getD x []).getD y 0 < 1 →
        place_fruits m c r x y = (setCell m x y (-2), c + 1))
    ∧ (c < 2 → r = 0 → ¬ (m.getD x []).getD y 0 < 1 →
        place_fruits m c r x y = (m, c))
    ∧ (¬ (c < 2 ∧ r = 0) → place_fruits m c r x y = (m, c)) := by
  refine ⟨C9_counterexample.1, ?_, ?_, ?_⟩
  · intro h1 h2 h3
    rw [place_fruits, if_pos ⟨h1, h2⟩, if_pos h3]
  · intro h1 h2 h3
    rw [place_fruits, if_pos ⟨h1, h2⟩, if_neg h3]
  · intro h
    rw [place_fruits, if_neg h]

/-- C9 (witness): a zero draw with no fruits yet on a code-0 tile places
the fruit and bumps the counter. -/
theorem C9_witness :
    ((0 : ℤ) < 2 ∧ (0 : ℕ) = 0 ∧ (([[0]] : Matrix).getD 0 []).getD 0 0 < 1)
    ∧ place_fruits [[0]] 0 0 0 0 = ([[-2]], 1) := by
  refine ⟨by decide, ?_⟩
  have h := (C9_fruit_placement_amended [[0]] 0 0 0 0).2.1 (by decide) rfl (by decide)
  rw [h]
  decide

/-- C10: in every session state reachable during play, each adversary's
speed equals half its original speed exactly while its vulnerable
(frightened) flag is set and equals the original speed while it is clear;
and the respawn transition itself always produces an adversary at full
original speed, not vulnerable, and alive — so an adversary respawning
while power mode is still active comes back at full speed and power mode
is never re-applied to it. -/
theorem C10_ghost_speed_invariant (g : GameState) (hg : Reachable g) :
    (∀ e ∈ g.ghosts,
      (e.frightened = true → e.speed = e.original_speed / 2)
      ∧ (e.frightened = false → e.speed = e.original_speed))
    ∧ ∀ e : Entity, (Entity.respawn e).speed = e.original_speed
        ∧ (Entity.respawn e).frightened = false
        ∧ (Entity.respawn e).alive = true :=
  ⟨(gameInv_reachable g hg).1, fun _ => ⟨rfl, rfl, rfl⟩⟩

/-- C10 (witness): the invariant instantiated at the concrete reachable
startup state `sampleState`. -/
theorem C10_witness :
    (∀ e ∈ sampleState.ghosts,
      (e.frightened = true → e.speed = e.original_speed / 2)
      ∧ (e.frightened = false → e.speed = e.original_speed))
    ∧ ∀ e : Entity, (Entity.respawn e).speed = e.original_speed
        ∧ (Entity.respawn e).frightened = false
        ∧ (Entity.respawn e).alive = true :=
  C10_ghost_speed_invariant sampleState
    (Reachable.init 10 3 (some [[7, 5]]) samplePlayer rfl)

end Pacman
